import Mathlib

/-!
Shallow embedding of `src/script.py` of the repository
`wikidata-anime-episode-quick-add`: a bot that fetches a season's episode
catalog from MyAnimeList (via the Jikan API), creates one Wikidata item per
missing episode, links consecutive episodes into a chain with explicit
"no value" sentinels at the boundaries, and updates the season item's
aggregate claims.  Property and item identifiers are kept as the literal
Wikidata id strings used by the source.
-/

set_option autoImplicit false

namespace Script

/- Wikidata property/item constants, from the top of src/script.py. -/

def part_of_series : String := "P179"

def series_ordinal : String := "P1545"

def instance_of : String := "P31"

def anime_tv_series_episode : String := "Q102364578"

def origin_country : String := "P495"

def japan : String := "Q17"

def original_language : String := "P364"

def japanese : String := "Q5287"

def publication_date : String := "P577"

def follows : String := "P155"

def followed_by : String := "P156"

def title : String := "P1476"

def season : String := "P4908"

def number_of_episodes : String := "P1113"

def has_parts : String := "P527"

def mal_id : String := "P4086"

def myanimelist : String := "Q4044680"

def stated_in : String := "P248"

/-- Modelled from the spec: the reference-URL property constant `url_prop`
is imported from the `wikidata_bot_framework` package (not under src/); the
spec's external-interface section lists a "reference-URL" property role. -/
def url_prop : String := "P854"

/-- The value carried by a claim or qualifier.  `novalue` renders
`claim.setSnakType("novalue")`; entity targets are Wikidata item id
strings (fresh ids for items created during the run). -/
inductive ClaimValue where
  | item (qid : String)
  | str (s : String)
  | quantity (n : Nat)
  | mono (text : String) (lang : String)
  | time (t : Nat)
  | novalue
deriving DecidableEq, Repr

/-- A `(property, value)` pair: a qualifier on a claim, or a claim inside a
reference. -/
structure Qualifier where
  prop : String
  value : ClaimValue
deriving DecidableEq, Repr

/-- An `ExtraReference`: a URL match pattern plus reference claims, each
tagged with its `also_match_property_values` flag. -/
structure Reference where
  urlMatchPattern : String
  claims : List (Qualifier × Bool)
deriving DecidableEq, Repr

/-- An `ExtraProperty`: a claim with its qualifiers, references, and the
`skip_if_conflicting_exists` flag. -/
structure ExtraProperty where
  prop : String
  value : ClaimValue
  qualifiers : List Qualifier
  references : List Reference
  skip_if_conflicting_exists : Bool
deriving DecidableEq, Repr

/-- A claim with no qualifiers, references, or flags, as built by
`ExtraProperty.from_property_id_and_value`. -/
def plainProp (p : String) (v : ClaimValue) : ExtraProperty :=
  { prop := p, value := v, qualifiers := [], references := [],
    skip_if_conflicting_exists := false }

/-- The `EpisodeData` dataclass.  `aired` is an abstract timestamp. -/
structure EpisodeData where
  number : Nat
  title_en : String
  title_ja : Option String
  title_romaji : Option String
  aired : Option Nat
deriving DecidableEq, Repr

/-- Python `str.strip()`: drop whitespace from both ends.  Implemented over
the character list so that it evaluates inside the kernel. -/
def pyStrip (s : String) : String :=
  String.mk
    (((s.data.dropWhile Char.isWhitespace).reverse.dropWhile
        Char.isWhitespace).reverse)

/-- Python `f"{x:0>2}"`: right-align in width 2, filling with `'0'`. -/
def padLeft2 (s : String) : String :=
  if s.length < 2 then String.mk (List.replicate (2 - s.length) '0') ++ s else s

/-- A Python f-string renders the value `None` as the text `"None"`; the
source interpolates `anime_name_en` into the season-qualified aliases
without checking it for `None`. -/
def optionStr : Option String → String
  | some s => s
  | none => "None"

/-- The English aliases built by `Bot.make_episode_item_output`
(src/script.py lines 208-252): the romanized title when present, nonempty
and different from the primary title after trimming; four series+ordinal
variants when the series label resolves; nine season-qualified variants
when the season's own ordinal (the `series_ordinal` qualifier on its
`part_of_series` claim) resolves. -/
def make_episode_item_aliases (anime_name_en : Option String)
    (season_number : Option String) (episode : EpisodeData) : List String :=
  let base : List String :=
    match episode.title_romaji with
    | some r => if r ≠ "" ∧ pyStrip r ≠ pyStrip episode.title_en then [r] else []
    | none => []
  let seriesPart : List String :=
    match anime_name_en with
    | some a =>
        [a ++ " Episode " ++ toString episode.number,
         a ++ " ep " ++ toString episode.number,
         a ++ " ep. " ++ toString episode.number,
         a ++ " ep" ++ toString episode.number]
    | none => []
  let seasonPart : List String :=
    match season_number with
    | some s =>
        let a := optionStr anime_name_en
        let n := toString episode.number
        [a ++ " Season " ++ s ++ " Episode " ++ n,
         a ++ " Season " ++ s ++ " ep " ++ n,
         a ++ " Season " ++ s ++ " ep. " ++ n,
         a ++ " S " ++ s ++ " ep " ++ n,
         a ++ " S " ++ s ++ " ep. " ++ n,
         a ++ " S" ++ s ++ "EP" ++ n,
         a ++ " S" ++ padLeft2 s ++ "EP" ++ padLeft2 n,
         a ++ " S" ++ s ++ "E" ++ n,
         a ++ " S" ++ padLeft2 s ++ "E" ++ padLeft2 n]
    | none => []
  base ++ seriesPart ++ seasonPart

/-- The bot's state after `Bot.__init__` succeeds.  `anime_item` is the
series item resolved from the season's `part_of_series` claim (or the
interactive prompt); `episode_items` are the pre-existing episode items
read from the season's `has_parts` claims or the SPARQL fallback. -/
structure Bot where
  episode_data : List EpisodeData
  season_item : String
  myanimelist_id : String
  anime_item : String
  episode_items : List String
deriving DecidableEq, Repr

/-- Embeds `Bot.__init__` (src/script.py lines 62-91): the two invariant
assertions, run before anything is created or linked.  `existing_items`
and `declared_count` are the season's pre-existing episode items and its
`number_of_episodes` claim value as read from the knowledge base. -/
def Bot.init (episode_data : List EpisodeData)
    (season_item myanimelist_id anime_item : String)
    (existing_items : List String) (declared_count : Option Nat) :
    Except String Bot :=
  if existing_items.length ≠ 0 ∧ episode_data.length < existing_items.length
  then
    Except.error "Episode count mismatch"
  else
    match declared_count with
    | some c =>
        if c = episode_data.length then
          Except.ok ⟨episode_data, season_item, myanimelist_id, anime_item,
            existing_items⟩
        else Except.error "Episode count mismatch"
    | none =>
        Except.ok ⟨episode_data, season_item, myanimelist_id, anime_item,
          existing_items⟩

/-- Embeds `Bot.reference` (src/script.py lines 113-130): the one provenance
reference built for the run, with the `also_match_property_values` flag of
each reference claim. -/
def Bot.reference (bot : Bot) : Reference :=
  { urlMatchPattern := "^https://myanimelist.net/anime/" ++ bot.myanimelist_id
  , claims :=
      [ (⟨stated_in, ClaimValue.item myanimelist⟩, true)
      , (⟨mal_id, ClaimValue.str bot.myanimelist_id⟩, true)
      , (⟨url_prop, ClaimValue.str ("https://myanimelist.net/anime/"
            ++ bot.myanimelist_id ++ "/_/episode")⟩, false) ] }

/-- Embeds `Bot.process` (src/script.py lines 132-136): before submission, every
property of the output gets the run's reference appended. -/
def Bot.applyRefs (bot : Bot) (output : List ExtraProperty) :
    List ExtraProperty :=
  output.map fun p => { p with references := p.references ++ [bot.reference] }

/-- The claims part of `Bot.make_episode_item_output` (src/script.py lines
260-285), in the order the source adds them to the `OutputHelper`. -/
def make_episode_item_claims (anime_item season_item : String)
    (episode : EpisodeData) : List ExtraProperty :=
  [ plainProp instance_of (ClaimValue.item anime_tv_series_episode)
  , plainProp origin_country (ClaimValue.item japan)
  , plainProp original_language (ClaimValue.item japanese) ]
  ++ (match episode.aired with
      | some t => [plainProp publication_date (ClaimValue.time t)]
      | none => [])
  ++ [plainProp part_of_series (ClaimValue.item anime_item)]
  ++ (match episode.title_ja with
      | some tj =>
          if tj ≠ "" then [plainProp title (ClaimValue.mono tj "ja")] else []
      | none => [])
  ++ [ { prop := season, value := ClaimValue.item season_item
       , qualifiers :=
           [⟨series_ordinal, ClaimValue.str (toString episode.number)⟩]
       , references := [], skip_if_conflicting_exists := false } ]

/-- The output built by `Bot.link_episode_item` (src/script.py lines
168-202) before `process` attaches references: the season-membership claim
(added first, then mutated with the follows/followed-by qualifiers), then
the preceding-episode claim, then the following-episode claim.  The list
indexing is total here; in `run` the indices are always in range because
`episode_items` holds one item per catalog record. -/
def linkFollowsVal (episode_items : List String) (episode : EpisodeData) :
    ClaimValue :=
  if episode.number = 1 then ClaimValue.novalue
  else ClaimValue.item (episode_items.getD (episode.number - 2) "")

def linkFollowedByVal (episode_items : List String) (total : Nat)
    (episode : EpisodeData) : ClaimValue :=
  if episode.number = total then ClaimValue.novalue
  else ClaimValue.item (episode_items.getD episode.number "")

def link_episode_item_output (season_item : String)
    (episode_items : List String) (total : Nat) (episode : EpisodeData) :
    List ExtraProperty :=
  [ { prop := season, value := ClaimValue.item season_item
    , qualifiers :=
        [⟨follows, linkFollowsVal episode_items episode⟩,
         ⟨followed_by, linkFollowedByVal episode_items total episode⟩]
    , references := [], skip_if_conflicting_exists := false }
  , plainProp follows (linkFollowsVal episode_items episode)
  , plainProp followed_by (linkFollowedByVal episode_items total episode) ]

/-- One knowledge-base transactional unit submitted by the run: the
creation of an episode item, the linking submission for one episode, or
the season aggregate submission.  Outputs are recorded as submitted, i.e.
after `process` attached the references. -/
inductive Event where
  | create (itemId : String) (output : List ExtraProperty)
  | link (itemId : String) (output : List ExtraProperty)
  | seasonUpdate (itemId : String) (output : List ExtraProperty)
deriving DecidableEq, Repr

/-- The output submitted by an event. -/
def Event.output : Event → List ExtraProperty
  | .create _ o => o
  | .link _ o => o
  | .seasonUpdate _ o => o

/-- Ids of the items created during the run (opaque fresh identities
assigned at the moment `new_item.get(force=True)` confirms creation). -/
def freshIds (n : Nat) : List String :=
  (List.range n).map fun k => "Qnew" ++ toString k

/-- The records lacking a pre-existing entity:
`self.episode_data[len(self.episode_items):]` (src/script.py line 140). -/
def Bot.toCreate (bot : Bot) : List EpisodeData :=
  bot.episode_data.drop bot.episode_items.length

def Bot.newIds (bot : Bot) : List String := freshIds bot.toCreate.length

/-- The value of `self.episode_items` after the creation loop appended the
new items. -/
def Bot.allItems (bot : Bot) : List String :=
  bot.episode_items ++ bot.newIds

/-- The creation transactions of `Bot.run` (src/script.py lines 139-146),
one per record without a pre-existing entity, in catalog order. -/
def Bot.createEvents (bot : Bot) : List Event :=
  (bot.toCreate.zip bot.newIds).map fun pr =>
    Event.create pr.2
      (bot.applyRefs
        (make_episode_item_claims bot.anime_item bot.season_item pr.1))

/-- The linking transactions of `Bot.run` (src/script.py lines 153-161),
one per `zip(self.episode_data, self.episode_items)` pair, in order. -/
def Bot.linkEvents (bot : Bot) : List Event :=
  (bot.episode_data.zip bot.allItems).map fun pr =>
    Event.link pr.2
      (bot.applyRefs
        (link_episode_item_output bot.season_item bot.allItems
          bot.episode_data.length pr.1))

/-- The `number_of_episodes` claim added to the season output with
`skip_if_conflicting_exists = True` (src/script.py lines 148-152). -/
def numEpisodesProp (n : Nat) : ExtraProperty :=
  { prop := number_of_episodes, value := ClaimValue.quantity n
  , qualifiers := [], references := [], skip_if_conflicting_exists := true }

/-- One `has_parts` claim for the season, qualified with the 1-based
ordinal rendered as a string (src/script.py lines 156-157). -/
def hasPartsProp (num : Nat) (itemId : String) : ExtraProperty :=
  { prop := has_parts, value := ClaimValue.item itemId
  , qualifiers := [⟨series_ordinal, ClaimValue.str (toString num)⟩]
  , references := [], skip_if_conflicting_exists := false }

/-- The `has_parts` claims accumulated by
`enumerate(zip(self.episode_data, self.episode_items), start=1)`:
`k` is the next 1-based ordinal. -/
def hasPartsProps (k : Nat) : List (EpisodeData × String) → List ExtraProperty
  | [] => []
  | pr :: rest => hasPartsProp k pr.2 :: hasPartsProps (k + 1) rest

/-- The season `OutputHelper` contents at the moment `Bot.run` submits it
(src/script.py lines 147-166). -/
def Bot.seasonOutput (bot : Bot) : List ExtraProperty :=
  numEpisodesProp bot.episode_data.length
    :: hasPartsProps 1 (bot.episode_data.zip bot.allItems)

/-- Modelled from the spec: the framework's submission layer (package
`wikidata_bot_framework`, not under src/) silently skips a claim whose
`skip_if_conflicting_exists` flag is set when the target entity already
carries a different value for the same property, rather than overwrite
it.  `existingVals` are the target's current values for the property. -/
def submitWithSkip (existingVals : List ClaimValue) (p : ExtraProperty) :
    Option ExtraProperty :=
  if p.skip_if_conflicting_exists ∧ ∃ v ∈ existingVals, v ≠ p.value then none
  else some p

/-- The result of `Bot.run`: the ordered list of submitted transactional
units and the final entity list. -/
structure RunResult where
  events : List Event
  episode_items : List String
deriving DecidableEq, Repr

/-- Embeds `Bot.run` (src/script.py lines 138-166): create the missing episode
items (catalog order), link every episode (catalog order), then submit the
season aggregate as the last single unit. -/
def Bot.run (bot : Bot) : RunResult :=
  { events :=
      bot.createEvents ++ bot.linkEvents
        ++ [Event.seasonUpdate bot.season_item (bot.applyRefs bot.seasonOutput)]
  , episode_items := bot.allItems }

/-- Embeds `Bot.__init__` followed by `Bot.run` as invoked by `main`: a failed
assertion in `__init__` aborts before any transaction is submitted. -/
def runSeason (episode_data : List EpisodeData)
    (season_item myanimelist_id anime_item : String)
    (existing_items : List String) (declared_count : Option Nat) :
    Except String RunResult :=
  (Bot.init episode_data season_item myanimelist_id anime_item
      existing_items declared_count).map Bot.run

/-- The transactions a season run submits: none when `__init__` aborts. -/
def runSeasonEvents (episode_data : List EpisodeData)
    (season_item myanimelist_id anime_item : String)
    (existing_items : List String) (declared_count : Option Nat) :
    List Event :=
  match runSeason episode_data season_item myanimelist_id anime_item
      existing_items declared_count with
  | Except.ok r => r.events
  | Except.error _ => []

/-! ## Catalog fetch loop (src/script.py lines 306-335) -/

/-- A raw Jikan episode record as consumed by the fetch loop: the fields
read out of each element of `data["data"]`. -/
structure RawEpisode where
  title : String
  title_japanese : Option String
  title_romanji : Option String
  aired : Option Nat
deriving DecidableEq, Repr

/-- Embeds `enumerate(data["data"], 1)` inside the fetch loop: episode
numbers are
assigned densely by position, starting at 1. -/
def numberEpisodesFrom (k : Nat) : List RawEpisode → List EpisodeData
  | [] => []
  | r :: rest =>
      ⟨k, r.title, r.title_japanese, r.title_romanji, r.aired⟩
        :: numberEpisodesFrom (k + 1) rest

/-- One HTTP response of the catalog endpoint, as the fetch loop sees it:
a network failure, an HTTP error status (`raise_for_status`), or a body.
`body none` is a body that fails JSON parsing; a parsed body records
whether the `"data"` key is present, the
`pagination.last_visible_page` value when the `"pagination"` key chain is
present, and the episode records. -/
inductive FetchResponse where
  | connError
  | httpError
  | body (parsed : Option (Bool × Option Nat × List RawEpisode))
deriving DecidableEq, Repr

/-- The mutable state of the fetch loop: current page, the page count once
known (set from the first successfully parsed page), and the episodes
accumulated so far. -/
structure FetchState where
  page : Nat
  count : Option Nat
  acc : List RawEpisode
deriving DecidableEq, Repr

/-- The outcome of one iteration of the fetch loop. -/
inductive FetchStep where
  | retry (delay : Nat) (s : FetchState)
  | nextPage (s : FetchState)
  | finished (episodes : List RawEpisode)
  | fatal (err : String)
deriving DecidableEq, Repr

/-- One iteration of the fetch loop in `main` (src/script.py lines
308-335).  The `except` clause catches exactly `ConnectionError`,
`HTTPError` and `AssertionError` (the `assert "data" in data` check) and
sleeps 5 seconds; a body that fails JSON parsing raises
`requests.JSONDecodeError`, and a parsed body whose `"pagination"` key is
missing while `count` is still unset raises `KeyError` — neither is in the
caught tuple, so both propagate out of `main`. -/
def fetchStep (s : FetchState) (r : FetchResponse) : FetchStep :=
  match r with
  | .connError => .retry 5 s
  | .httpError => .retry 5 s
  | .body none => .fatal "JSONDecodeError"
  | .body (some (hasDataKey, pagination, records)) =>
      if !hasDataKey then .retry 5 s
      else
        match s.count, pagination with
        | none, none => .fatal "KeyError: pagination"
        | none, some c =>
            if s.page = c then .finished (s.acc ++ records)
            else .nextPage ⟨s.page + 1, some c, s.acc ++ records⟩
        | some c, _ =>
            if s.page = c then .finished (s.acc ++ records)
            else .nextPage ⟨s.page + 1, some c, s.acc ++ records⟩

/-- The fetch loop driven by a finite oracle of responses: `none` means the
oracle ran out while the loop was still running (it never gives up on its
own). -/
def fetchLoop (responses : List FetchResponse) (s : FetchState) :
    Option (Except String (List RawEpisode)) :=
  match responses with
  | [] => none
  | r :: rest =>
      match fetchStep s r with
      | .retry _ s' => fetchLoop rest s'
      | .nextPage s' => fetchLoop rest s'
      | .finished eps => some (Except.ok eps)
      | .fatal e => some (Except.error e)

/-- The responses the `except` clause absorbs: network errors, HTTP error
statuses, and parsed bodies without a `"data"` key. -/
def retryable : FetchResponse → Bool
  | .connError => true
  | .httpError => true
  | .body none => false
  | .body (some (hasDataKey, _, _)) => !hasDataKey

/-! ## Edit-group id threading (src/script.py lines 93-96 and 289-341) -/

/-- Embeds `Bot.get_edit_group_id` (src/script.py lines 93-96): return the
id a
previous season's run minted when one was handed over (Python truthiness:
`None` and `""` both fall through), else the framework-minted id.
Modelled from the spec: the framework superclass method (package
`wikidata_bot_framework`, not under src/) mints one opaque edit-group id
per bot instance and returns that same id for all of the instance's edits;
the per-instance minted id is passed here explicitly. -/
def getEditGroupId (old_edit_group_id : Option String)
    (mintedId : String) : String :=
  match old_edit_group_id with
  | none => mintedId
  | some oldId => if oldId = "" then mintedId else oldId

/-- The edit-group ids used by the successive season runs of one `main`
invocation (src/script.py lines 296-340): season `j` would mint `mint j`
if it had nothing handed over; `prev` is `old_eg_id`, which `main` sets to
`bot.get_edit_group_id()` after each season. -/
def mainEditGroupIds (mint : Nat → String) (j : Nat) (prev : Option String) :
    Nat → List String
  | 0 => []
  | n + 1 =>
      let gid := getEditGroupId prev (mint j)
      gid :: mainEditGroupIds mint (j + 1) (some gid) n

/-! ## Predicates used by the theorems -/

/-- The output contains a claim with the given property and value. -/
def hasClaim (output : List ExtraProperty) (p : String) (v : ClaimValue) :
    Prop :=
  ∃ e ∈ output, e.prop = p ∧ e.value = v

instance (output : List ExtraProperty) (p : String) (v : ClaimValue) :
    Decidable (hasClaim output p v) :=
  inferInstanceAs (Decidable (∃ e ∈ output, _ ∧ _))

/-- The output contains a season-membership claim targeting `seasonItem`
that carries the qualifier `(p, v)`. -/
def hasSeasonQualifier (output : List ExtraProperty) (seasonItem : String)
    (p : String) (v : ClaimValue) : Prop :=
  ∃ e ∈ output, e.prop = season ∧ e.value = ClaimValue.item seasonItem ∧
    Qualifier.mk p v ∈ e.qualifiers

instance (output : List ExtraProperty) (seasonItem : String) (p : String)
    (v : ClaimValue) : Decidable (hasSeasonQualifier output seasonItem p v) :=
  inferInstanceAs (Decidable (∃ e ∈ output, _ ∧ _ ∧ _))

/-- The episode numbers are dense starting at `k`, as `main` produces them
via `enumerate(..., 1)`. -/
def denseFrom (k : Nat) : List EpisodeData → Bool
  | [] => true
  | e :: rest => e.number = k && denseFrom (k + 1) rest

/-! ## Concrete sample inputs, used to instantiate the theorems -/

/-- A three-record catalog with densely numbered episodes. -/
def sampleData3 : List EpisodeData :=
  [⟨1, "E1", none, none, none⟩, ⟨2, "E2", none, none, none⟩,
   ⟨3, "E3", none, none, none⟩]

/-- A fresh season: three catalog records, no pre-existing entities. -/
def sampleBot3 : Bot := ⟨sampleData3, "QS", "77", "QA", []⟩

/-- A resumed season: three catalog records, one pre-existing entity. -/
def sampleBotResume : Bot := ⟨sampleData3, "QS", "77", "QA", ["Q100"]⟩

/-- A single-episode season. -/
def sampleBot1 : Bot := ⟨[⟨1, "Only", none, none, none⟩], "QS", "77", "QA", []⟩

/-! ## Helper lemmas -/

theorem length_freshIds (n : Nat) : (freshIds n).length = n := by
  simp [freshIds]

theorem length_newIds (bot : Bot) :
    bot.newIds.length = bot.episode_data.length - bot.episode_items.length := by
  simp [Bot.newIds, length_freshIds, Bot.toCreate]

theorem length_allItems (bot : Bot)
    (hk : bot.episode_items.length ≤ bot.episode_data.length) :
    bot.allItems.length = bot.episode_data.length := by
  simp only [Bot.allItems, List.length_append, length_newIds]
  omega

theorem length_createEvents (bot : Bot) :
    bot.createEvents.length =
      bot.episode_data.length - bot.episode_items.length := by
  simp [Bot.createEvents, Bot.newIds, length_freshIds, Bot.toCreate]

theorem length_linkEvents (bot : Bot)
    (hk : bot.episode_items.length ≤ bot.episode_data.length) :
    bot.linkEvents.length = bot.episode_data.length := by
  simp [Bot.linkEvents, length_allItems bot hk]

theorem getD_of_getElem? {α : Type} {l : List α} {i : Nat} {a d : α}
    (h : l[i]? = some a) : l.getD i d = a := by
  simp [List.getD_eq_getElem?_getD, h]

theorem denseFrom_getElem? :
    ∀ (l : List EpisodeData) (k j : Nat) (ep : EpisodeData),
      denseFrom k l = true → l[j]? = some ep → ep.number = k + j
  | [], _, j, _, _, hj => by simp at hj
  | e :: rest, k, 0, ep, h, hj => by
      simp only [denseFrom, Bool.and_eq_true, decide_eq_true_eq] at h
      simp only [List.getElem?_cons_zero, Option.some.injEq] at hj
      subst hj
      omega
  | e :: rest, k, j + 1, ep, h, hj => by
      simp only [denseFrom, Bool.and_eq_true, decide_eq_true_eq] at h
      simp only [List.getElem?_cons_succ] at hj
      have := denseFrom_getElem? rest (k + 1) j ep h.2 hj
      omega

/-- The linking output after `process` attached the reference, as an
explicit list. -/
theorem applyRefs_link_output (bot : Bot) (sid : String)
    (items : List String) (total : Nat) (ep : EpisodeData) :
    bot.applyRefs (link_episode_item_output sid items total ep) =
      [ { prop := season, value := ClaimValue.item sid
        , qualifiers :=
            [⟨follows, linkFollowsVal items ep⟩,
             ⟨followed_by, linkFollowedByVal items total ep⟩]
        , references := [bot.reference], skip_if_conflicting_exists := false }
      , { prop := follows, value := linkFollowsVal items ep
        , qualifiers := [], references := [bot.reference]
        , skip_if_conflicting_exists := false }
      , { prop := followed_by, value := linkFollowedByVal items total ep
        , qualifiers := [], references := [bot.reference]
        , skip_if_conflicting_exists := false } ] := by
  simp [Bot.applyRefs, link_episode_item_output, plainProp]

theorem link_output_hasFollows (bot : Bot) (sid : String)
    (items : List String) (total : Nat) (ep : EpisodeData) :
    hasClaim (bot.applyRefs (link_episode_item_output sid items total ep))
      follows (linkFollowsVal items ep) := by
  rw [applyRefs_link_output]
  exact ⟨_, List.mem_cons_of_mem _ (List.mem_cons_self _ _), rfl, rfl⟩

theorem link_output_hasFollowedBy (bot : Bot) (sid : String)
    (items : List String) (total : Nat) (ep : EpisodeData) :
    hasClaim (bot.applyRefs (link_episode_item_output sid items total ep))
      followed_by (linkFollowedByVal items total ep) := by
  rw [applyRefs_link_output]
  exact ⟨_,
    List.mem_cons_of_mem _ (List.mem_cons_of_mem _ (List.mem_cons_self _ _)),
    rfl, rfl⟩

theorem link_output_qualFollows (bot : Bot) (sid : String)
    (items : List String) (total : Nat) (ep : EpisodeData) :
    hasSeasonQualifier
      (bot.applyRefs (link_episode_item_output sid items total ep)) sid
      follows (linkFollowsVal items ep) := by
  rw [applyRefs_link_output]
  exact ⟨_, List.mem_cons_self _ _, rfl, rfl, List.mem_cons_self _ _⟩

theorem link_output_qualFollowedBy (bot : Bot) (sid : String)
    (items : List String) (total : Nat) (ep : EpisodeData) :
    hasSeasonQualifier
      (bot.applyRefs (link_episode_item_output sid items total ep)) sid
      followed_by (linkFollowedByVal items total ep) := by
  rw [applyRefs_link_output]
  exact ⟨_, List.mem_cons_self _ _, rfl, rfl,
    List.mem_cons_of_mem _ (List.mem_cons_self _ _)⟩

/-- Where each link transaction sits in the run's event list, and what it
submits: position `createEvents.length + i` carries the linking of the
entity at 0-based index `i`. -/
theorem run_link_event (bot : Bot)
    (hk : bot.episode_items.length ≤ bot.episode_data.length)
    (i : Nat) (hi : i < bot.episode_data.length) :
    ∃ ep, bot.episode_data[i]? = some ep ∧
      (bot.run).events[bot.createEvents.length + i]? =
        some (Event.link (bot.allItems.getD i "")
          (bot.applyRefs
            (link_episode_item_output bot.season_item bot.allItems
              bot.episode_data.length ep))) := by
  have hitems := length_allItems bot hk
  match hep : bot.episode_data[i]? with
  | none =>
      exact absurd (List.getElem?_eq_none_iff.mp hep) (by omega)
  | some ep =>
      refine ⟨ep, rfl, ?_⟩
      match hid : bot.allItems[i]? with
      | none =>
          exact absurd (List.getElem?_eq_none_iff.mp hid) (by omega)
      | some itemId =>
          have hzip : (bot.episode_data.zip bot.allItems)[i]? =
              some (ep, itemId) :=
            List.getElem?_zip_eq_some.mpr ⟨hep, hid⟩
          have hgetD : bot.allItems.getD i "" = itemId := getD_of_getElem? hid
          have hlink : bot.linkEvents[i]? =
              some (Event.link itemId
                (bot.applyRefs
                  (link_episode_item_output bot.season_item bot.allItems
                    bot.episode_data.length ep))) := by
            simp [Bot.linkEvents, hzip]
          calc (bot.run).events[bot.createEvents.length + i]?
              = (bot.linkEvents
                  ++ [Event.seasonUpdate bot.season_item
                        (bot.applyRefs bot.seasonOutput)])[
                    bot.createEvents.length + i - bot.createEvents.length]? := by
                simp only [Bot.run, List.append_assoc]
                exact List.getElem?_append_right (by omega)
            _ = bot.linkEvents[i]? := by
                rw [Nat.add_sub_cancel_left]
                exact List.getElem?_append_left (by
                  rw [length_linkEvents bot hk]; omega)
            _ = _ := by rw [hlink, hgetD]

/-- Where each creation transaction sits in the run's event list, and what
it submits: position `j` creates an entity for the record at 0-based index
`episode_items.length + j`, with the fresh id `"Qnew" ++ toString j`. -/
theorem run_create_event (bot : Bot) (j : Nat)
    (hj : j < bot.episode_data.length - bot.episode_items.length) :
    ∃ ep, bot.episode_data[bot.episode_items.length + j]? = some ep ∧
      (bot.run).events[j]? =
        some (Event.create ("Qnew" ++ toString j)
          (bot.applyRefs
            (make_episode_item_claims bot.anime_item bot.season_item ep))) := by
  have hlenc : bot.toCreate.length =
      bot.episode_data.length - bot.episode_items.length := by
    simp [Bot.toCreate]
  match hep : bot.toCreate[j]? with
  | none =>
      exact absurd (List.getElem?_eq_none_iff.mp hep) (by omega)
  | some ep =>
      have hep' : bot.episode_data[bot.episode_items.length + j]? = some ep := by
        rw [← List.getElem?_drop]
        exact hep
      refine ⟨ep, hep', ?_⟩
      have hid : bot.newIds[j]? = some ("Qnew" ++ toString j) := by
        simp only [Bot.newIds, freshIds, List.getElem?_map, hlenc,
          List.getElem?_range (show j < _ from hj)]
        rfl
      have hzip : (bot.toCreate.zip bot.newIds)[j]? = some (ep, _) :=
        List.getElem?_zip_eq_some.mpr ⟨hep, hid⟩
      have hcreate : bot.createEvents[j]? =
          some (Event.create ("Qnew" ++ toString j)
            (bot.applyRefs
              (make_episode_item_claims bot.anime_item bot.season_item ep))) := by
        simp [Bot.createEvents, hzip]
      calc (bot.run).events[j]?
          = bot.createEvents[j]? := by
            simp only [Bot.run, List.append_assoc]
            exact List.getElem?_append_left (by rw [length_createEvents]; omega)
        _ = _ := hcreate

theorem applyRefs_references (bot : Bot) (out : List ExtraProperty)
    (hout : ∀ p ∈ out, p.references = []) :
    ∀ p ∈ bot.applyRefs out, p.references = [bot.reference] := by
  intro p hp
  rcases List.mem_map.mp hp with ⟨q, hq, rfl⟩
  simp [hout q hq]

theorem make_claims_refs (a s : String) (ep : EpisodeData) :
    ∀ p ∈ make_episode_item_claims a s ep, p.references = [] := by
  intro p hp
  unfold make_episode_item_claims at hp
  simp only [List.mem_append] at hp
  rcases hp with (((h | h) | h) | h) | h
  · simp only [List.mem_cons, List.not_mem_nil, or_false] at h
    rcases h with rfl | rfl | rfl <;> rfl
  · split at h
    · simp only [List.mem_singleton] at h
      subst h
      rfl
    · simp at h
  · simp only [List.mem_singleton] at h
    subst h
    rfl
  · split at h
    · split at h
      · simp only [List.mem_singleton] at h
        subst h
        rfl
      · simp at h
    · simp at h
  · simp only [List.mem_singleton] at h
    subst h
    rfl

theorem link_claims_refs (sid : String) (items : List String) (total : Nat)
    (ep : EpisodeData) :
    ∀ p ∈ link_episode_item_output sid items total ep, p.references = [] := by
  intro p hp
  simp only [link_episode_item_output, plainProp, List.mem_cons,
    List.not_mem_nil, or_false] at hp
  rcases hp with rfl | rfl | rfl <;> rfl

theorem hasPartsProps_refs :
    ∀ (l : List (EpisodeData × String)) (k : Nat),
      ∀ p ∈ hasPartsProps k l, p.references = []
  | [], _, p, hp => by simp [hasPartsProps] at hp
  | pr :: rest, k, p, hp => by
      simp only [hasPartsProps, List.mem_cons] at hp
      rcases hp with rfl | hp
      · rfl
      · exact hasPartsProps_refs rest (k + 1) p hp

theorem season_claims_refs (bot : Bot) :
    ∀ p ∈ bot.seasonOutput, p.references = [] := by
  intro p hp
  simp only [Bot.seasonOutput, List.mem_cons] at hp
  rcases hp with rfl | hp
  · rfl
  · exact hasPartsProps_refs _ 1 p hp

theorem hasPartsProps_length :
    ∀ (l : List (EpisodeData × String)) (k : Nat),
      (hasPartsProps k l).length = l.length
  | [], _ => rfl
  | pr :: rest, k => by
      simp only [hasPartsProps, List.length_cons,
        hasPartsProps_length rest (k + 1)]

theorem hasPartsProps_getElem? :
    ∀ (l : List (EpisodeData × String)) (k j : Nat),
      (hasPartsProps k l)[j]? =
        (l[j]?).map fun pr => hasPartsProp (k + j) pr.2
  | [], _, j => by simp [hasPartsProps]
  | pr :: rest, k, 0 => by simp [hasPartsProps]
  | pr :: rest, k, j + 1 => by
      simp only [hasPartsProps, List.getElem?_cons_succ]
      rw [hasPartsProps_getElem? rest (k + 1) j]
      have hkj : k + 1 + j = k + (j + 1) := by omega
      rw [hkj]

theorem hasPartsProps_filter :
    ∀ (l : List (EpisodeData × String)) (k : Nat),
      (hasPartsProps k l).filter
        (fun p => p.prop == number_of_episodes) = []
  | [], _ => rfl
  | pr :: rest, k => by
      rw [hasPartsProps, List.filter_cons_of_neg,
        hasPartsProps_filter rest (k + 1)]
      simp [hasPartsProp, has_parts, number_of_episodes]

/-! ## Claim theorems -/

/-- C1: for a positionally-ordered list of N episode entities, the linking
step gives the entity at every ordinal i with 1 < i ≤ N a
preceding-episode claim targeting the entity at ordinal i-1, gives the
entity at every ordinal i < N a following-episode claim targeting the
entity at ordinal i+1, gives ordinal 1 an explicit no-value
preceding-episode claim, and gives ordinal N an explicit no-value
following-episode claim; each of these is also attached as a qualifier on
that entity's season-membership claim.  (0-based entity list, 1-based
ordinal: ordinal i is list index i-1.) -/
theorem C1_chain_links (bot : Bot)
    (hdense : denseFrom 1 bot.episode_data = true)
    (hk : bot.episode_items.length ≤ bot.episode_data.length)
    (i : Nat) (h1 : 1 ≤ i) (hN : i ≤ bot.episode_data.length) :
    ∃ out,
      (bot.run).events[bot.createEvents.length + (i - 1)]? =
        some (Event.link (bot.allItems.getD (i - 1) "") out) ∧
      (1 < i →
        hasClaim out follows
            (ClaimValue.item (bot.allItems.getD (i - 2) "")) ∧
          hasSeasonQualifier out bot.season_item follows
            (ClaimValue.item (bot.allItems.getD (i - 2) ""))) ∧
      (i < bot.episode_data.length →
        hasClaim out followed_by
            (ClaimValue.item (bot.allItems.getD i "")) ∧
          hasSeasonQualifier out bot.season_item followed_by
            (ClaimValue.item (bot.allItems.getD i ""))) ∧
      (i = 1 →
        hasClaim out follows ClaimValue.novalue ∧
          hasSeasonQualifier out bot.season_item follows
            ClaimValue.novalue) ∧
      (i = bot.episode_data.length →
        hasClaim out followed_by ClaimValue.novalue ∧
          hasSeasonQualifier out bot.season_item followed_by
            ClaimValue.novalue) := by
  obtain ⟨ep, hep, hev⟩ := run_link_event bot hk (i - 1) (by omega)
  have hnum : ep.number = i := by
    have := denseFrom_getElem? _ 1 (i - 1) ep hdense hep
    omega
  refine ⟨_, hev, ?_, ?_, ?_, ?_⟩
  · intro hgt
    have hfv : linkFollowsVal bot.allItems ep =
        ClaimValue.item (bot.allItems.getD (i - 2) "") := by
      unfold linkFollowsVal
      rw [hnum, if_neg (by omega)]
    exact ⟨hfv ▸ link_output_hasFollows bot _ _ _ ep,
      hfv ▸ link_output_qualFollows bot _ _ _ ep⟩
  · intro hlt
    have hdv : linkFollowedByVal bot.allItems bot.episode_data.length ep =
        ClaimValue.item (bot.allItems.getD i "") := by
      unfold linkFollowedByVal
      rw [hnum, if_neg (by omega)]
    exact ⟨hdv ▸ link_output_hasFollowedBy bot _ _ _ ep,
      hdv ▸ link_output_qualFollowedBy bot _ _ _ ep⟩
  · intro heq
    have hfv : linkFollowsVal bot.allItems ep = ClaimValue.novalue := by
      unfold linkFollowsVal
      rw [hnum, if_pos heq]
    exact ⟨hfv ▸ link_output_hasFollows bot _ _ _ ep,
      hfv ▸ link_output_qualFollows bot _ _ _ ep⟩
  · intro heq
    have hdv : linkFollowedByVal bot.allItems bot.episode_data.length ep =
        ClaimValue.novalue := by
      unfold linkFollowedByVal
      rw [hnum, if_pos heq]
    exact ⟨hdv ▸ link_output_hasFollowedBy bot _ _ _ ep,
      hdv ▸ link_output_qualFollowedBy bot _ _ _ ep⟩

/-- Witness for C1: the fresh three-episode season at ordinal 2. -/
theorem C1_chain_links_witness :
    (denseFrom 1 sampleBot3.episode_data = true ∧
      sampleBot3.episode_items.length ≤ sampleBot3.episode_data.length ∧
      1 ≤ 2 ∧ 2 ≤ sampleBot3.episode_data.length) ∧
    (∃ out,
      (sampleBot3.run).events[sampleBot3.createEvents.length + (2 - 1)]? =
        some (Event.link (sampleBot3.allItems.getD (2 - 1) "") out) ∧
      (1 < 2 →
        hasClaim out follows
            (ClaimValue.item (sampleBot3.allItems.getD (2 - 2) "")) ∧
          hasSeasonQualifier out sampleBot3.season_item follows
            (ClaimValue.item (sampleBot3.allItems.getD (2 - 2) ""))) ∧
      (2 < sampleBot3.episode_data.length →
        hasClaim out followed_by
            (ClaimValue.item (sampleBot3.allItems.getD 2 "")) ∧
          hasSeasonQualifier out sampleBot3.season_item followed_by
            (ClaimValue.item (sampleBot3.allItems.getD 2 ""))) ∧
      (2 = 1 →
        hasClaim out follows ClaimValue.novalue ∧
          hasSeasonQualifier out sampleBot3.season_item follows
            ClaimValue.novalue) ∧
      (2 = sampleBot3.episode_data.length →
        hasClaim out followed_by ClaimValue.novalue ∧
          hasSeasonQualifier out sampleBot3.season_item followed_by
            ClaimValue.novalue)) :=
  ⟨⟨by decide, by decide, by decide, by decide⟩,
    C1_chain_links sampleBot3 (by decide) (by decide) 2 (by decide)
      (by decide)⟩

/-- C10: for a season whose catalog has exactly one episode, the linking
step gives the single entity both boundary sentinels — an explicit
no-value preceding-episode claim and an explicit no-value
following-episode claim, each also attached as a qualifier on its
season-membership claim — and no ordinary preceding or following link. -/
theorem C10_single_episode (bot : Bot) (ep : EpisodeData)
    (hdata : bot.episode_data = [ep]) (hnum : ep.number = 1)
    (hex : bot.episode_items = []) :
    ∃ out,
      (bot.run).events[bot.createEvents.length]? =
        some (Event.link (bot.allItems.getD 0 "") out) ∧
      hasClaim out follows ClaimValue.novalue ∧
      hasClaim out followed_by ClaimValue.novalue ∧
      hasSeasonQualifier out bot.season_item follows ClaimValue.novalue ∧
      hasSeasonQualifier out bot.season_item followed_by ClaimValue.novalue ∧
      (∀ q : String, ¬ hasClaim out follows (ClaimValue.item q)) ∧
      (∀ q : String, ¬ hasClaim out followed_by (ClaimValue.item q)) := by
  have hk : bot.episode_items.length ≤ bot.episode_data.length := by
    rw [hdata, hex]; simp
  have hlen : bot.episode_data.length = 1 := by rw [hdata]; rfl
  obtain ⟨ep', hep, hev⟩ := run_link_event bot hk 0 (by omega)
  have hepEq : ep' = ep := by
    rw [hdata] at hep
    simp only [List.getElem?_cons_zero, Option.some.injEq] at hep
    exact hep.symm
  subst hepEq
  have hfv : linkFollowsVal bot.allItems ep' = ClaimValue.novalue := by
    unfold linkFollowsVal
    rw [hnum]
    simp
  have hdv : linkFollowedByVal bot.allItems bot.episode_data.length ep' =
      ClaimValue.novalue := by
    unfold linkFollowedByVal
    rw [hnum, hlen]
    simp
  have hout :
      bot.applyRefs
          (link_episode_item_output bot.season_item bot.allItems
            bot.episode_data.length ep') =
        [ { prop := season, value := ClaimValue.item bot.season_item
          , qualifiers :=
              [⟨follows, ClaimValue.novalue⟩,
               ⟨followed_by, ClaimValue.novalue⟩]
          , references := [bot.reference]
          , skip_if_conflicting_exists := false }
        , { prop := follows, value := ClaimValue.novalue, qualifiers := []
          , references := [bot.reference]
          , skip_if_conflicting_exists := false }
        , { prop := followed_by, value := ClaimValue.novalue
          , qualifiers := [], references := [bot.reference]
          , skip_if_conflicting_exists := false } ] := by
    rw [applyRefs_link_output, hfv, hdv]
  rw [Nat.add_zero] at hev
  refine ⟨_, hev,
    hfv ▸ link_output_hasFollows bot _ _ _ ep',
    hdv ▸ link_output_hasFollowedBy bot _ _ _ ep',
    hfv ▸ link_output_qualFollows bot _ _ _ ep',
    hdv ▸ link_output_qualFollowedBy bot _ _ _ ep', ?_, ?_⟩
  · rintro q ⟨e, he, hprop, hval⟩
    rw [hout] at he
    simp only [List.mem_cons, List.not_mem_nil, or_false] at he
    rcases he with rfl | rfl | rfl
    · simp [season, follows] at hprop
    · exact ClaimValue.noConfusion hval
    · simp [followed_by, follows] at hprop
  · rintro q ⟨e, he, hprop, hval⟩
    rw [hout] at he
    simp only [List.mem_cons, List.not_mem_nil, or_false] at he
    rcases he with rfl | rfl | rfl
    · simp [season, followed_by] at hprop
    · simp [follows, followed_by] at hprop
    · exact ClaimValue.noConfusion hval

/-- Witness for C10: the concrete single-episode season. -/
theorem C10_single_episode_witness :
    (sampleBot1.episode_data = [⟨1, "Only", none, none, none⟩] ∧
      (⟨1, "Only", none, none, none⟩ : EpisodeData).number = 1 ∧
      sampleBot1.episode_items = []) ∧
    (∃ out,
      (sampleBot1.run).events[sampleBot1.createEvents.length]? =
        some (Event.link (sampleBot1.allItems.getD 0 "") out) ∧
      hasClaim out follows ClaimValue.novalue ∧
      hasClaim out followed_by ClaimValue.novalue ∧
      hasSeasonQualifier out sampleBot1.season_item follows
        ClaimValue.novalue ∧
      hasSeasonQualifier out sampleBot1.season_item followed_by
        ClaimValue.novalue ∧
      (∀ q : String, ¬ hasClaim out follows (ClaimValue.item q)) ∧
      (∀ q : String, ¬ hasClaim out followed_by (ClaimValue.item q))) :=
  ⟨⟨rfl, rfl, rfl⟩,
    C10_single_episode sampleBot1 ⟨1, "Only", none, none, none⟩ rfl rfl rfl⟩

/-- C3: for a season where entities for ordinals 1..k already exist
(k ≤ N), a fresh run creates new entities only for the records at 0-based
indices k..N-1 (ordinals k+1..N), reuses the k existing entities unchanged
as the entities for ordinals 1..k (they form the prefix of the final
entity list), and still performs the linking step over all N entities. -/
theorem C3_resumability (bot : Bot)
    (hk : bot.episode_items.length ≤ bot.episode_data.length) :
    bot.createEvents.length =
      bot.episode_data.length - bot.episode_items.length ∧
    (∀ j, j < bot.episode_data.length - bot.episode_items.length →
      ∃ ep, bot.episode_data[bot.episode_items.length + j]? = some ep ∧
        (bot.run).events[j]? =
          some (Event.create ("Qnew" ++ toString j)
            (bot.applyRefs
              (make_episode_item_claims bot.anime_item bot.season_item ep)))) ∧
    (bot.run).episode_items.length = bot.episode_data.length ∧
    (bot.run).episode_items.take bot.episode_items.length =
      bot.episode_items ∧
    bot.linkEvents.length = bot.episode_data.length ∧
    (∀ i, i < bot.episode_data.length →
      ∃ ep, bot.episode_data[i]? = some ep ∧
        (bot.run).events[bot.createEvents.length + i]? =
          some (Event.link ((bot.run).episode_items.getD i "")
            (bot.applyRefs
              (link_episode_item_output bot.season_item
                (bot.run).episode_items bot.episode_data.length ep)))) := by
  refine ⟨length_createEvents bot, fun j hj => run_create_event bot j hj,
    length_allItems bot hk, ?_, length_linkEvents bot hk,
    fun i hi => run_link_event bot hk i hi⟩
  show (bot.episode_items ++ bot.newIds).take _ = _
  exact List.take_left _ _

/-- Witness for C3: the resumed season with one pre-existing entity and
three catalog records. -/
theorem C3_resumability_witness :
    (sampleBotResume.episode_items.length ≤
      sampleBotResume.episode_data.length) ∧
    (sampleBotResume.createEvents.length =
      sampleBotResume.episode_data.length -
        sampleBotResume.episode_items.length ∧
    (∀ j, j < sampleBotResume.episode_data.length -
        sampleBotResume.episode_items.length →
      ∃ ep, sampleBotResume.episode_data[
          sampleBotResume.episode_items.length + j]? = some ep ∧
        (sampleBotResume.run).events[j]? =
          some (Event.create ("Qnew" ++ toString j)
            (sampleBotResume.applyRefs
              (make_episode_item_claims sampleBotResume.anime_item
                sampleBotResume.season_item ep)))) ∧
    (sampleBotResume.run).episode_items.length =
      sampleBotResume.episode_data.length ∧
    (sampleBotResume.run).episode_items.take
        sampleBotResume.episode_items.length =
      sampleBotResume.episode_items ∧
    sampleBotResume.linkEvents.length =
      sampleBotResume.episode_data.length ∧
    (∀ i, i < sampleBotResume.episode_data.length →
      ∃ ep, sampleBotResume.episode_data[i]? = some ep ∧
        (sampleBotResume.run).events[
            sampleBotResume.createEvents.length + i]? =
          some (Event.link ((sampleBotResume.run).episode_items.getD i "")
            (sampleBotResume.applyRefs
              (link_episode_item_output sampleBotResume.season_item
                (sampleBotResume.run).episode_items
                sampleBotResume.episode_data.length ep))))) :=
  ⟨by decide, C3_resumability sampleBotResume (by decide)⟩

/-- C2: if the season carries a declared episode-count claim whose value
differs from the number of fetched catalog records, or the pre-existing
episode entities outnumber the catalog records, the run aborts with the
invariant-violation error ("Episode count mismatch") during `__init__`,
before any entity is created or linked: no transaction is submitted. -/
theorem C2_invariant_abort (episode_data : List EpisodeData)
    (season_item myanimelist_id anime_item : String)
    (existing_items : List String) (declared_count : Option Nat)
    (h : (∃ c, declared_count = some c ∧ c ≠ episode_data.length) ∨
      episode_data.length < existing_items.length) :
    runSeason episode_data season_item myanimelist_id anime_item
        existing_items declared_count =
      Except.error "Episode count mismatch" ∧
    runSeasonEvents episode_data season_item myanimelist_id anime_item
        existing_items declared_count = [] := by
  have herr : Bot.init episode_data season_item myanimelist_id anime_item
      existing_items declared_count =
      Except.error "Episode count mismatch" := by
    unfold Bot.init
    rcases h with ⟨c, hc, hne⟩ | hlt
    · subst hc
      by_cases hcase : existing_items.length ≠ 0 ∧
          episode_data.length < existing_items.length
      · rw [if_pos hcase]
      · rw [if_neg hcase]
        exact if_neg hne
    · rw [if_pos ⟨by omega, hlt⟩]
  refine ⟨?_, ?_⟩
  · unfold runSeason
    rw [herr]
    rfl
  · unfold runSeasonEvents runSeason
    rw [herr]
    rfl

/-- Witness for C2: the spec's own example — a season already carrying a
declared count of 12 and a catalog of 13 records. -/
theorem C2_invariant_abort_witness :
    ((∃ c, (some 12 : Option Nat) = some c ∧
        c ≠ ((List.range 13).map (fun i =>
          (⟨i + 1, "E", none, none, none⟩ : EpisodeData))).length) ∨
      ((List.range 13).map (fun i =>
          (⟨i + 1, "E", none, none, none⟩ : EpisodeData))).length <
        ([] : List String).length) ∧
    (runSeason ((List.range 13).map (fun i =>
          (⟨i + 1, "E", none, none, none⟩ : EpisodeData))) "QS" "77" "QA"
        [] (some 12) =
      Except.error "Episode count mismatch" ∧
    runSeasonEvents ((List.range 13).map (fun i =>
          (⟨i + 1, "E", none, none, none⟩ : EpisodeData))) "QS" "77" "QA"
        [] (some 12) = []) :=
  ⟨Or.inl ⟨12, rfl, by decide⟩,
    C2_invariant_abort _ "QS" "77" "QA" [] (some 12)
      (Or.inl ⟨12, rfl, by decide⟩)⟩

/-- C4: every claim submitted by any of the run's transactions — entity
creation, episode linking, and the season aggregate update — carries
exactly the run's one provenance reference, whose URL match pattern is
derived from the catalog identifier, whose stated-in and catalog-id claims
carry the match-key flag (`also_match_property_values = true`), and whose
catalog-URL claim does not. -/
theorem C4_provenance (bot : Bot) :
    (∀ e ∈ (bot.run).events, ∀ p ∈ e.output,
      p.references = [bot.reference]) ∧
    bot.reference.urlMatchPattern =
      "^https://myanimelist.net/anime/" ++ bot.myanimelist_id ∧
    bot.reference.claims =
      [ (⟨stated_in, ClaimValue.item myanimelist⟩, true)
      , (⟨mal_id, ClaimValue.str bot.myanimelist_id⟩, true)
      , (⟨url_prop, ClaimValue.str ("https://myanimelist.net/anime/"
            ++ bot.myanimelist_id ++ "/_/episode")⟩, false) ] := by
  refine ⟨?_, rfl, rfl⟩
  intro e he
  simp only [Bot.run, List.append_assoc, List.mem_append, List.mem_cons,
    List.not_mem_nil, or_false] at he
  rcases he with he | he | he
  · rcases List.mem_map.mp he with ⟨pr, _, rfl⟩
    exact applyRefs_references bot _
      (make_claims_refs bot.anime_item bot.season_item pr.1)
  · rcases List.mem_map.mp he with ⟨pr, _, rfl⟩
    exact applyRefs_references bot _
      (link_claims_refs bot.season_item bot.allItems
        bot.episode_data.length pr.1)
  · subst he
    exact applyRefs_references bot _ (season_claims_refs bot)

/-- C5: when the romanized title is present and differs from the primary
title after trimming, the series label resolves, and the season ordinal
resolves, the generated English aliases are exactly: the romanized title,
the four series+ordinal variants, and the nine season-qualified variants,
zero-padded to two digits in the padded compact forms — so for series
label "Example", season ordinal 2, episode ordinal 5, both
"Example S02EP05" and "Example S2E5" appear. -/
theorem C5_alias_generation (a s r : String) (ep : EpisodeData)
    (hr : ep.title_romaji = some r)
    (hne : r ≠ "" ∧ pyStrip r ≠ pyStrip ep.title_en) :
    make_episode_item_aliases (some a) (some s) ep =
      [r,
       a ++ " Episode " ++ toString ep.number,
       a ++ " ep " ++ toString ep.number,
       a ++ " ep. " ++ toString ep.number,
       a ++ " ep" ++ toString ep.number,
       a ++ " Season " ++ s ++ " Episode " ++ toString ep.number,
       a ++ " Season " ++ s ++ " ep " ++ toString ep.number,
       a ++ " Season " ++ s ++ " ep. " ++ toString ep.number,
       a ++ " S " ++ s ++ " ep " ++ toString ep.number,
       a ++ " S " ++ s ++ " ep. " ++ toString ep.number,
       a ++ " S" ++ s ++ "EP" ++ toString ep.number,
       a ++ " S" ++ padLeft2 s ++ "EP" ++ padLeft2 (toString ep.number),
       a ++ " S" ++ s ++ "E" ++ toString ep.number,
       a ++ " S" ++ padLeft2 s ++ "E" ++ padLeft2 (toString ep.number)] ∧
    "Example S02EP05" ∈
      make_episode_item_aliases (some "Example") (some "2")
        ⟨5, "The Title", none, some "Taitoru", none⟩ ∧
    "Example S2E5" ∈
      make_episode_item_aliases (some "Example") (some "2")
        ⟨5, "The Title", none, some "Taitoru", none⟩ := by
  refine ⟨?_, by decide, by decide⟩
  unfold make_episode_item_aliases
  rw [hr]
  dsimp only
  rw [if_pos hne]
  rfl

/-- Witness for C5: series "Example", season ordinal "2", episode 5. -/
theorem C5_alias_generation_witness :
    ((⟨5, "The Title", none, some "Taitoru", none⟩ :
        EpisodeData).title_romaji = some "Taitoru" ∧
      ("Taitoru" ≠ "" ∧ pyStrip "Taitoru" ≠ pyStrip "The Title")) ∧
    (make_episode_item_aliases (some "Example") (some "2")
        ⟨5, "The Title", none, some "Taitoru", none⟩ =
      ["Taitoru",
       "Example Episode 5",
       "Example ep 5",
       "Example ep. 5",
       "Example ep5",
       "Example Season 2 Episode 5",
       "Example Season 2 ep 5",
       "Example Season 2 ep. 5",
       "Example S 2 ep 5",
       "Example S 2 ep. 5",
       "Example S2EP5",
       "Example S02EP05",
       "Example S2E5",
       "Example S02E05"] ∧
    "Example S02EP05" ∈
      make_episode_item_aliases (some "Example") (some "2")
        ⟨5, "The Title", none, some "Taitoru", none⟩ ∧
    "Example S2E5" ∈
      make_episode_item_aliases (some "Example") (some "2")
        ⟨5, "The Title", none, some "Taitoru", none⟩) :=
  ⟨⟨rfl, by decide, by decide⟩,
    C5_alias_generation "Example" "2" "Taitoru"
      ⟨5, "The Title", none, some "Taitoru", none⟩ rfl (by decide)⟩

/-- C6 counterexample: in the concrete single-episode run, the linking
transaction does add a season-membership claim, but that claim carries no
`series_ordinal` qualifier at all — refuting, at this input, the claim
that the linking step qualifies season membership with the ordinal. -/
theorem C6_counterexample :
    hasClaim ((sampleBot1.run).events.getD 1 (Event.create "" [])).output
      season (ClaimValue.item "QS") ∧
    ∀ e ∈ ((sampleBot1.run).events.getD 1 (Event.create "" [])).output,
      ∀ q ∈ e.qualifiers, q.prop ≠ series_ordinal := by
  decide

/-- C6 amended: for every ordinal, the linking step adds on the entity a
season-membership claim qualified only with the preceding- and
following-episode qualifiers (sentinels at the boundaries) and never with
the ordinal; the ordinal-qualified season-membership claim is produced by
entity creation only. -/
theorem C6_amended_link_qualifiers (bot : Bot)
    (hk : bot.episode_items.length ≤ bot.episode_data.length)
    (i : Nat) (hi : i < bot.episode_data.length) :
    ∃ ep, bot.episode_data[i]? = some ep ∧
      ∃ out,
        (bot.run).events[bot.createEvents.length + i]? =
          some (Event.link (bot.allItems.getD i "") out) ∧
        hasClaim out season (ClaimValue.item bot.season_item) ∧
        (∀ e ∈ out, ∀ q ∈ e.qualifiers,
          q.prop = follows ∨ q.prop = followed_by) ∧
        (∀ e ∈ out, ∀ q ∈ e.qualifiers, q.prop ≠ series_ordinal) ∧
        hasSeasonQualifier
          (make_episode_item_claims bot.anime_item bot.season_item ep)
          bot.season_item series_ordinal
          (ClaimValue.str (toString ep.number)) := by
  obtain ⟨ep, hep, hev⟩ := run_link_event bot hk i hi
  refine ⟨ep, hep, _, hev, ?_, ?_, ?_, ?_⟩
  · rw [applyRefs_link_output]
    exact ⟨_, List.mem_cons_self _ _, rfl, rfl⟩
  · rw [applyRefs_link_output]
    intro e he q hq
    simp only [List.mem_cons, List.not_mem_nil, or_false] at he
    rcases he with rfl | rfl | rfl
    · simp only [List.mem_cons, List.not_mem_nil, or_false] at hq
      rcases hq with rfl | rfl
      · exact Or.inl rfl
      · exact Or.inr rfl
    · simp at hq
    · simp at hq
  · rw [applyRefs_link_output]
    intro e he q hq
    simp only [List.mem_cons, List.not_mem_nil, or_false] at he
    rcases he with rfl | rfl | rfl
    · simp only [List.mem_cons, List.not_mem_nil, or_false] at hq
      rcases hq with rfl | rfl
      · simp [follows, series_ordinal]
      · simp [followed_by, series_ordinal]
    · simp at hq
    · simp at hq
  · refine ⟨_, List.mem_append_right _ (List.mem_singleton.mpr rfl),
      rfl, rfl, List.mem_cons_self _ _⟩

/-- Witness for the amended C6: the fresh three-episode season at 0-based
index 1. -/
theorem C6_amended_link_qualifiers_witness :
    (sampleBot3.episode_items.length ≤ sampleBot3.episode_data.length ∧
      1 < sampleBot3.episode_data.length) ∧
    (∃ ep, sampleBot3.episode_data[1]? = some ep ∧
      ∃ out,
        (sampleBot3.run).events[sampleBot3.createEvents.length + 1]? =
          some (Event.link (sampleBot3.allItems.getD 1 "") out) ∧
        hasClaim out season (ClaimValue.item sampleBot3.season_item) ∧
        (∀ e ∈ out, ∀ q ∈ e.qualifiers,
          q.prop = follows ∨ q.prop = followed_by) ∧
        (∀ e ∈ out, ∀ q ∈ e.qualifiers, q.prop ≠ series_ordinal) ∧
        hasSeasonQualifier
          (make_episode_item_claims sampleBot3.anime_item
            sampleBot3.season_item ep)
          sampleBot3.season_item series_ordinal
          (ClaimValue.str (toString ep.number))) :=
  ⟨⟨by decide, by decide⟩,
    C6_amended_link_qualifiers sampleBot3 (by decide) 1 (by decide)⟩

/-- C7: the season aggregate submission is the run's single last
transaction, after all creations and all per-episode linking; it carries
exactly one total-episode-count claim, whose value is the number of
catalog records and whose skip-if-conflicting flag is set (so a different
pre-existing value makes the submission layer skip it silently), plus one
has-parts claim per episode entity in ascending ordinal order, each
qualified with its 1-based ordinal. -/
theorem C7_season_aggregate (bot : Bot)
    (hk : bot.episode_items.length ≤ bot.episode_data.length) :
    (bot.run).events =
      bot.createEvents ++ bot.linkEvents ++
        [Event.seasonUpdate bot.season_item
          (bot.applyRefs bot.seasonOutput)] ∧
    bot.linkEvents.length = bot.episode_data.length ∧
    bot.seasonOutput.filter (fun p => p.prop == number_of_episodes) =
      [numEpisodesProp bot.episode_data.length] ∧
    (numEpisodesProp bot.episode_data.length).value =
      ClaimValue.quantity bot.episode_data.length ∧
    (numEpisodesProp bot.episode_data.length).skip_if_conflicting_exists =
      true ∧
    (∀ c, c ≠ bot.episode_data.length →
      submitWithSkip [ClaimValue.quantity c]
        (numEpisodesProp bot.episode_data.length) = none) ∧
    (∀ i, i < bot.episode_data.length →
      bot.seasonOutput[i + 1]? =
        some (hasPartsProp (i + 1) (bot.allItems.getD i ""))) ∧
    bot.seasonOutput.length = bot.episode_data.length + 1 := by
  have hitems := length_allItems bot hk
  refine ⟨rfl, length_linkEvents bot hk, ?_, rfl, rfl, ?_, ?_, ?_⟩
  · show List.filter _ (_ :: _) = _
    rw [List.filter_cons_of_pos (by rfl), hasPartsProps_filter]
  · intro c hc
    unfold submitWithSkip
    rw [if_pos]
    refine ⟨rfl, ClaimValue.quantity c, List.mem_singleton.mpr rfl, ?_⟩
    intro h
    exact hc (ClaimValue.quantity.inj h)
  · intro i hi
    match hep : bot.episode_data[i]? with
    | none =>
        exact absurd (List.getElem?_eq_none_iff.mp hep) (by omega)
    | some ep =>
        match hid : bot.allItems[i]? with
        | none =>
            exact absurd (List.getElem?_eq_none_iff.mp hid) (by omega)
        | some itemId =>
            have hzip : (bot.episode_data.zip bot.allItems)[i]? =
                some (ep, itemId) :=
              List.getElem?_zip_eq_some.mpr ⟨hep, hid⟩
            show (_ :: hasPartsProps 1 _)[i + 1]? = _
            rw [List.getElem?_cons_succ, hasPartsProps_getElem?, hzip,
              getD_of_getElem? hid]
            have h1i : 1 + i = i + 1 := by omega
            rw [h1i]
            rfl
  · show (_ :: hasPartsProps 1 _).length = _
    rw [List.length_cons, hasPartsProps_length, List.length_zip, hitems]
    omega

/-- Witness for C7: the fresh three-episode season. -/
theorem C7_season_aggregate_witness :
    (sampleBot3.episode_items.length ≤ sampleBot3.episode_data.length) ∧
    ((sampleBot3.run).events =
      sampleBot3.createEvents ++ sampleBot3.linkEvents ++
        [Event.seasonUpdate sampleBot3.season_item
          (sampleBot3.applyRefs sampleBot3.seasonOutput)] ∧
    sampleBot3.linkEvents.length = sampleBot3.episode_data.length ∧
    sampleBot3.seasonOutput.filter
        (fun p => p.prop == number_of_episodes) =
      [numEpisodesProp sampleBot3.episode_data.length] ∧
    (numEpisodesProp sampleBot3.episode_data.length).value =
      ClaimValue.quantity sampleBot3.episode_data.length ∧
    (numEpisodesProp
        sampleBot3.episode_data.length).skip_if_conflicting_exists = true ∧
    (∀ c, c ≠ sampleBot3.episode_data.length →
      submitWithSkip [ClaimValue.quantity c]
        (numEpisodesProp sampleBot3.episode_data.length) = none) ∧
    (∀ i, i < sampleBot3.episode_data.length →
      sampleBot3.seasonOutput[i + 1]? =
        some (hasPartsProp (i + 1) (sampleBot3.allItems.getD i ""))) ∧
    sampleBot3.seasonOutput.length =
      sampleBot3.episode_data.length + 1) :=
  ⟨by decide, C7_season_aggregate sampleBot3 (by decide)⟩

/-- A fetch loop fed only absorbable failures keeps retrying and never
returns, with an error or otherwise. -/
theorem fetchLoop_retryable :
    ∀ (rs : List FetchResponse), (∀ r ∈ rs, retryable r = true) →
      ∀ s, fetchLoop rs s = none
  | [], _, s => rfl
  | r :: rest, h, s => by
      have hr := h r (List.mem_cons_self _ _)
      have hrest := fun r' hr' => h r' (List.mem_cons_of_mem _ hr')
      cases r with
      | connError =>
          simp [fetchLoop, fetchStep, fetchLoop_retryable rest hrest]
      | httpError =>
          simp [fetchLoop, fetchStep, fetchLoop_retryable rest hrest]
      | body parsed =>
          cases parsed with
          | none => simp [retryable] at hr
          | some t =>
              obtain ⟨hasD, pg, recs⟩ := t
              cases hasD with
              | false =>
                  simp [fetchLoop, fetchStep, fetchLoop_retryable rest hrest]
              | true => simp [retryable] at hr

/-- C8 counterexample: a syntactically valid but incomplete first-page
response — a JSON body with a `"data"` key but no `"pagination"` key —
is not retried: it is surfaced as a fatal uncaught `KeyError` (and a body
that fails JSON parsing is likewise fatal), refuting "never surfaced as
fatal" for malformed/incomplete catalog responses. -/
theorem C8_counterexample :
    fetchStep ⟨1, none, []⟩ (FetchResponse.body (some (true, none, []))) =
      FetchStep.fatal "KeyError: pagination" ∧
    fetchStep ⟨1, none, []⟩ (FetchResponse.body none) =
      FetchStep.fatal "JSONDecodeError" := by
  decide

/-- C8 amended: network errors, HTTP error statuses, and responses missing
the `"data"` key are fully absorbed at the fetch boundary — each causes a
retry from the same state with a fixed 5-second delay, and a run fed only
such responses keeps retrying indefinitely without surfacing anything —
but a response that fails JSON parsing, or one missing the `"pagination"`
field while the page count is still unknown, raises an uncaught fatal
error. -/
theorem C8_amended_retry (s : FetchState) :
    fetchStep s FetchResponse.connError = FetchStep.retry 5 s ∧
    fetchStep s FetchResponse.httpError = FetchStep.retry 5 s ∧
    (∀ pg recs,
      fetchStep s (FetchResponse.body (some (false, pg, recs))) =
        FetchStep.retry 5 s) ∧
    (∀ rs, (∀ r ∈ rs, retryable r = true) →
      ∀ s', fetchLoop rs s' = none) ∧
    fetchStep s (FetchResponse.body none) =
      FetchStep.fatal "JSONDecodeError" ∧
    (s.count = none →
      ∀ recs, fetchStep s (FetchResponse.body (some (true, none, recs))) =
        FetchStep.fatal "KeyError: pagination") := by
  refine ⟨rfl, rfl, fun pg recs => rfl, fetchLoop_retryable, rfl, ?_⟩
  intro hc recs
  unfold fetchStep
  rw [hc]
  rfl

/-- Witness for the amended C8: the initial fetch state. -/
theorem C8_amended_retry_witness :
    fetchStep ⟨1, none, []⟩ FetchResponse.connError =
      FetchStep.retry 5 ⟨1, none, []⟩ ∧
    fetchStep ⟨1, none, []⟩ FetchResponse.httpError =
      FetchStep.retry 5 ⟨1, none, []⟩ ∧
    (∀ pg recs,
      fetchStep ⟨1, none, []⟩ (FetchResponse.body (some (false, pg, recs))) =
        FetchStep.retry 5 ⟨1, none, []⟩) ∧
    (∀ rs, (∀ r ∈ rs, retryable r = true) →
      ∀ s', fetchLoop rs s' = none) ∧
    fetchStep ⟨1, none, []⟩ (FetchResponse.body none) =
      FetchStep.fatal "JSONDecodeError" ∧
    ((⟨1, none, []⟩ : FetchState).count = none →
      ∀ recs,
        fetchStep ⟨1, none, []⟩ (FetchResponse.body (some (true, none, recs))) =
          FetchStep.fatal "KeyError: pagination") :=
  C8_amended_retry ⟨1, none, []⟩

/-- Once a nonempty id has been handed over, every later season keeps
using it. -/
theorem mainEditGroupIds_const (mint : Nat → String) (g : String)
    (hg : ¬ g = "") :
    ∀ (n j : Nat), mainEditGroupIds mint j (some g) n = List.replicate n g
  | 0, _ => rfl
  | n + 1, j => by
      simp only [mainEditGroupIds, getEditGroupId, if_neg hg,
        List.replicate]
      exact congrArg (fun l => g :: l)
        (mainEditGroupIds_const mint g hg n (j + 1))

/-- C9: across the seasons of one invocation, the first season's run mints
the edit-group identifier and every subsequent season's run returns and
reuses that same identifier for its edits, so all edits across the
seasons share the one id minted by the first season. -/
theorem C9_edit_group_shared (mint : Nat → String) (hg : ¬ mint 0 = "")
    (n : Nat) :
    mainEditGroupIds mint 0 none n = List.replicate n (mint 0) := by
  cases n with
  | zero => rfl
  | succ m =>
      simp only [mainEditGroupIds, getEditGroupId, List.replicate]
      exact congrArg (fun l => mint 0 :: l)
        (mainEditGroupIds_const mint (mint 0) hg m 1)

/-- Witness for C9: three seasons in one invocation, all sharing the first
season's minted id. -/
theorem C9_edit_group_shared_witness :
    (¬ (fun k => "batch" ++ toString k) 0 = "") ∧
    mainEditGroupIds (fun k => "batch" ++ toString k) 0 none 3 =
      List.replicate 3 ((fun k => "batch" ++ toString k) 0) :=
  ⟨by decide, C9_edit_group_shared (fun k => "batch" ++ toString k)
    (by decide) 3⟩

end Script
